import Mathlib

/-!
Shallow embedding of `src/ed03_2/ed03_2_iglesias_rodriguez_cristian.py`,
a scientific-calculator class (`CalculadoraCientifica`) whose methods
validate their arguments, emit log records, and either return a numeric
result or raise `TypeError` / `ValueError`.

Modelling conventions:
* Python values are the inductive `PyVal`.  Python `bool` is a subclass of
  `int`, so `isinstance(b, (int, float))` holds for booleans; the embedding
  records this in `PyVal.isNumeric`.  Floats are idealised as rationals
  (finite values, exact arithmetic).
* Raising an exception is modelled with `Except`; every method returns the
  list of log records it emitted (in order) together with its outcome.
* The `math` module is abstracted as a structure `MathFns` whose fields
  give the value each library function returns on the domain where it
  returns one; each method that calls `math.pow`, `math.sqrt`, `math.log`,
  `math.log10`, `math.sin`, `math.cos` or `math.tan` takes the structure
  as a parameter and applies the corresponding field.  `math.pow` is
  partial at representable inputs: CPython raises
  `ValueError("math domain error")` for a zero base with a negative
  exponent and for a negative base with a non-integer exponent; this error
  path is modelled explicitly in `potencia` (predicate
  `dominioPowError`), after the INFO record, which the source logs before
  calling `math.pow`.  `math.sqrt`, `math.log` and `math.log10` are called
  only behind guards that keep them on their total domain, and
  `math.sin`/`cos`/`tan` are total on finite floats, so their fields need
  no error path.
* `%d` formatting truncates a float towards zero (`fmtd`); the fixed-point
  rendering of `%f` is abstracted to `toString` of the rational (`fmtf`).
  No claim depends on the rendered digits, only on record counts, levels
  and the `TypeError` message naming the offending type.
-/

namespace Calculadora

/-- A Python runtime value, restricted to the types the program can meet:
`int`, `bool`, `float`, and `str` as the representative non-numeric type. -/
inductive PyVal where
  | int (n : Int)
  | bool (b : Bool)
  | float (q : ℚ)
  | str (s : String)
deriving DecidableEq, Repr

/-- `isinstance(v, (int, float))`.  In Python `bool` is a subclass of
`int`, so booleans pass the check. -/
def PyVal.isNumeric : PyVal → Bool
  | .int _ => true
  | .bool _ => true
  | .float _ => true
  | .str _ => false

/-- The string produced by `type(v)` for each value, as interpolated into
the `TypeError` message. -/
def PyVal.typeName : PyVal → String
  | .int _ => "<class 'int'>"
  | .bool _ => "<class 'bool'>"
  | .float _ => "<class 'float'>"
  | .str _ => "<class 'str'>"

/-- Numeric value of a Python number (`True` counts as 1, `False` as 0).
Only meaningful on numeric values; non-numeric values never reach it
because `validar_numeros` raises first. -/
def PyVal.toRat : PyVal → ℚ
  | .int n => (n : ℚ)
  | .bool b => if b then 1 else 0
  | .float q => q
  | .str _ => 0

/-- Whether the value is of Python integer kind (`int` or `bool`), for
which `+`, `-`, `*` stay exact integers. -/
def PyVal.isIntKind : PyVal → Bool
  | .int _ => true
  | .bool _ => true
  | .float _ => false
  | .str _ => false

/-- Integer value of an `int`-kind Python value. -/
def PyVal.toIntVal : PyVal → Int
  | .int n => n
  | .bool b => if b then 1 else 0
  | .float _ => 0
  | .str _ => 0

/-- The two exception kinds the program raises. -/
inductive PyError where
  | typeError (msg : String)
  | valueError (msg : String)
deriving DecidableEq, Repr

/-- Severity of a log record. -/
inductive Level where
  | INFO
  | ERROR
deriving DecidableEq, Repr

/-- One log record: severity plus formatted message. -/
structure LogRecord where
  level : Level
  msg : String
deriving DecidableEq, Repr

/-- `%d` interpolation: the value truncated towards zero. -/
def fmtd (v : PyVal) : String :=
  toString (v.toRat.num.tdiv (v.toRat.den : Int))

/-- `%f` interpolation, with the fixed-point rendering abstracted. -/
def fmtf (v : PyVal) : String :=
  toString v.toRat

/-- The `TypeError` message `validar_numeros` builds for a non-numeric
argument `v`. -/
def mensajeTipo (v : PyVal) : String :=
  "Se esperaba un número, se recibió " ++ v.typeName

/-- `validar_numeros(*args)`: scan the arguments in order and raise
`TypeError` at the first one that is not `int`/`float` (returning the
exception as `some`); return `none` when all pass. -/
def validar_numeros : List PyVal → Option PyError
  | [] => Option.none
  | v :: vs =>
    if v.isNumeric then validar_numeros vs
    else some (.typeError (mensajeTipo v))

/-- Abstraction of the `math` module: the value each library function the
calculator calls returns, on the domain where it returns one (idealised
float type `ℚ`).  `pow` is the value of `math.pow` outside its
`ValueError` domain, which `dominioPowError` carves out; `sqrt`, `log`
and `log10` are only applied behind the calculator's guards (`x ≥ 0`
resp. `x > 0`), inside their total domain. -/
structure MathFns where
  pow : ℚ → ℚ → ℚ
  sqrt : ℚ → ℚ
  log : ℚ → ℚ
  log10 : ℚ → ℚ
  sin : ℚ → ℚ
  cos : ℚ → ℚ
  tan : ℚ → ℚ

/-- The representable inputs at which CPython's `math.pow` raises
`ValueError("math domain error")`: a zero base with a negative exponent,
or a negative base with a non-integer exponent. -/
def dominioPowError (base exponente : ℚ) : Prop :=
  (base = 0 ∧ exponente < 0) ∨ (base < 0 ∧ exponente.den ≠ 1)

instance (base exponente : ℚ) : Decidable (dominioPowError base exponente) := by
  unfold dominioPowError
  infer_instance

/-- Outcome of one method call: the log records it emitted, in order, and
either the returned value or the raised exception. -/
def Outcome := List LogRecord × Except PyError PyVal

/-- Python `a + b` on numbers: exact `int` when both operands are of
integer kind, float otherwise. -/
def pyAdd (a b : PyVal) : PyVal :=
  if a.isIntKind && b.isIntKind then .int (a.toIntVal + b.toIntVal)
  else .float (a.toRat + b.toRat)

/-- Python `a - b` on numbers. -/
def pySub (a b : PyVal) : PyVal :=
  if a.isIntKind && b.isIntKind then .int (a.toIntVal - b.toIntVal)
  else .float (a.toRat - b.toRat)

/-- Python `a * b` on numbers. -/
def pyMul (a b : PyVal) : PyVal :=
  if a.isIntKind && b.isIntKind then .int (a.toIntVal * b.toIntVal)
  else .float (a.toRat * b.toRat)

/-- `sumar(a, b)`: validate, log one INFO record, return `a + b`. -/
def sumar (a b : PyVal) : List LogRecord × Except PyError PyVal :=
  match validar_numeros [a, b] with
  | some e => ([], .error e)
  | Option.none =>
    ([⟨.INFO, "Sumando " ++ fmtd a ++ " + " ++ fmtd b⟩], .ok (pyAdd a b))

/-- `restar(a, b)`: validate, log one INFO record, return `a - b`. -/
def restar (a b : PyVal) : List LogRecord × Except PyError PyVal :=
  match validar_numeros [a, b] with
  | some e => ([], .error e)
  | Option.none =>
    ([⟨.INFO, "Restando " ++ fmtd a ++ " - " ++ fmtd b⟩], .ok (pySub a b))

/-- `multiplicar(a, b)`: validate, log one INFO record, return `a * b`. -/
def multiplicar (a b : PyVal) : List LogRecord × Except PyError PyVal :=
  match validar_numeros [a, b] with
  | some e => ([], .error e)
  | Option.none =>
    ([⟨.INFO, "Multiplicando " ++ fmtd a ++ " * " ++ fmtd b⟩], .ok (pyMul a b))

/-- `dividir(a, b)`: validate; on `b == 0` log one ERROR record and raise
`ValueError`; otherwise log one INFO record and return the true-division
float `a / b`. -/
def dividir (a b : PyVal) : List LogRecord × Except PyError PyVal :=
  match validar_numeros [a, b] with
  | some e => ([], .error e)
  | Option.none =>
    if b.toRat = 0 then
      ([⟨.ERROR, "Intento de división por cero al intentar dividir "
          ++ fmtd a ++ " por " ++ fmtd b⟩],
       .error (.valueError "No se puede dividir por cero"))
    else
      ([⟨.INFO, "Dividiendo " ++ fmtd a ++ " / " ++ fmtd b⟩],
       .ok (.float (a.toRat / b.toRat)))

/-- `potencia(base, exponente)`: validate, log one INFO record, return
`math.pow(base, exponente)` (a float).  The INFO record is logged before
`math.pow` runs, so when `math.pow` raises `ValueError` (domain error)
the record has already been emitted and the error propagates. -/
def potencia (M : MathFns) (base exponente : PyVal) :
    List LogRecord × Except PyError PyVal :=
  match validar_numeros [base, exponente] with
  | some e => ([], .error e)
  | Option.none =>
    if dominioPowError base.toRat exponente.toRat then
      ([⟨.INFO, "Calculando " ++ fmtd base ++ " ^ " ++ fmtd exponente⟩],
       .error (.valueError "math domain error"))
    else
      ([⟨.INFO, "Calculando " ++ fmtd base ++ " ^ " ++ fmtd exponente⟩],
       .ok (.float (M.pow base.toRat exponente.toRat)))

/-- `raiz_cuadrada(numero)`: validate; on `numero < 0` log one ERROR
record and raise `ValueError`; otherwise log one INFO record and return
`math.sqrt(numero)`. -/
def raiz_cuadrada (M : MathFns) (numero : PyVal) :
    List LogRecord × Except PyError PyVal :=
  match validar_numeros [numero] with
  | some e => ([], .error e)
  | Option.none =>
    if numero.toRat < 0 then
      ([⟨.ERROR, "Intento de calcular raíz cuadrada de número negativo: "
          ++ fmtd numero⟩],
       .error (.valueError
          "No se puede calcular la raíz cuadrada de un número negativo"))
    else
      ([⟨.INFO, "Calculando raíz cuadrada de " ++ fmtd numero⟩],
       .ok (.float (M.sqrt numero.toRat)))

/-- `logaritmo_natural(numero)`: validate; on `numero <= 0` log one ERROR
record and raise `ValueError`; otherwise log one INFO record and return
`math.log(numero)`. -/
def logaritmo_natural (M : MathFns) (numero : PyVal) :
    List LogRecord × Except PyError PyVal :=
  match validar_numeros [numero] with
  | some e => ([], .error e)
  | Option.none =>
    if numero.toRat ≤ 0 then
      ([⟨.ERROR, "Intento de calcular logaritmo de número no positivo: "
          ++ fmtd numero⟩],
       .error (.valueError
          "No se puede calcular el logaritmo de un número menor o igual a cero"))
    else
      ([⟨.INFO, "Calculando logaritmo natural de " ++ fmtd numero⟩],
       .ok (.float (M.log numero.toRat)))

/-- `logaritmo_base_10(numero)`: validate; on `numero <= 0` log one ERROR
record and raise `ValueError`; otherwise log one INFO record and return
`math.log10(numero)`. -/
def logaritmo_base_10 (M : MathFns) (numero : PyVal) :
    List LogRecord × Except PyError PyVal :=
  match validar_numeros [numero] with
  | some e => ([], .error e)
  | Option.none =>
    if numero.toRat ≤ 0 then
      ([⟨.ERROR, "Intento de calcular logaritmo base 10 de número no positivo: "
          ++ fmtd numero⟩],
       .error (.valueError
          "No se puede calcular el logaritmo de un número menor o igual a cero"))
    else
      ([⟨.INFO, "Calculando logaritmo base 10 de " ++ fmtd numero⟩],
       .ok (.float (M.log10 numero.toRat)))

/-- `seno(angulo)`: validate, log one INFO record, return
`math.sin(angulo)`. -/
def seno (M : MathFns) (angulo : PyVal) :
    List LogRecord × Except PyError PyVal :=
  match validar_numeros [angulo] with
  | some e => ([], .error e)
  | Option.none =>
    ([⟨.INFO, "Calculando seno de " ++ fmtf angulo ++ " radianes"⟩],
     .ok (.float (M.sin angulo.toRat)))

/-- `coseno(angulo)`: validate, log one INFO record, return
`math.cos(angulo)`. -/
def coseno (M : MathFns) (angulo : PyVal) :
    List LogRecord × Except PyError PyVal :=
  match validar_numeros [angulo] with
  | some e => ([], .error e)
  | Option.none =>
    ([⟨.INFO, "Calculando coseno de " ++ fmtf angulo ++ " radianes"⟩],
     .ok (.float (M.cos angulo.toRat)))

/-- `tangente(angulo)`: validate, log one INFO record, return
`math.tan(angulo)`. -/
def tangente (M : MathFns) (angulo : PyVal) :
    List LogRecord × Except PyError PyVal :=
  match validar_numeros [angulo] with
  | some e => ([], .error e)
  | Option.none =>
    ([⟨.INFO, "Calculando tangente de " ++ fmtf angulo ++ " radianes"⟩],
     .ok (.float (M.tan angulo.toRat)))

/-- One call of a public operation with its actual arguments, for
statements quantifying over all operations uniformly. -/
inductive Call where
  | sumar (a b : PyVal)
  | restar (a b : PyVal)
  | multiplicar (a b : PyVal)
  | dividir (a b : PyVal)
  | potencia (base exponente : PyVal)
  | raiz_cuadrada (numero : PyVal)
  | logaritmo_natural (numero : PyVal)
  | logaritmo_base_10 (numero : PyVal)
  | seno (angulo : PyVal)
  | coseno (angulo : PyVal)
  | tangente (angulo : PyVal)
deriving DecidableEq, Repr

/-- The argument list a call passes to `validar_numeros`. -/
def Call.args : Call → List PyVal
  | .sumar a b => [a, b]
  | .restar a b => [a, b]
  | .multiplicar a b => [a, b]
  | .dividir a b => [a, b]
  | .potencia a b => [a, b]
  | .raiz_cuadrada x => [x]
  | .logaritmo_natural x => [x]
  | .logaritmo_base_10 x => [x]
  | .seno x => [x]
  | .coseno x => [x]
  | .tangente x => [x]

/-- Dispatch a call to the corresponding method. -/
def Call.run (M : MathFns) : Call → List LogRecord × Except PyError PyVal
  | .sumar a b => Calculadora.sumar a b
  | .restar a b => Calculadora.restar a b
  | .multiplicar a b => Calculadora.multiplicar a b
  | .dividir a b => Calculadora.dividir a b
  | .potencia a b => Calculadora.potencia M a b
  | .raiz_cuadrada x => Calculadora.raiz_cuadrada M x
  | .logaritmo_natural x => Calculadora.logaritmo_natural M x
  | .logaritmo_base_10 x => Calculadora.logaritmo_base_10 M x
  | .seno x => Calculadora.seno M x
  | .coseno x => Calculadora.coseno M x
  | .tangente x => Calculadora.tangente M x

/-- Run a sequence of calls on the same calculator, accumulating the log
(the class holds no mutable state, so each call only appends records). -/
def runSeq (M : MathFns) : List Call → List LogRecord × List (Except PyError PyVal)
  | [] => ([], [])
  | c :: cs =>
    let r := c.run M
    let rs := runSeq M cs
    (r.1 ++ rs.1, r.2 :: rs.2)

/-- A concrete record of math-library functions, used to instantiate the
`MathFns` parameter in closed statements. -/
def mathDemo : MathFns where
  pow := fun _ _ => 8
  sqrt := fun _ => 4
  log := fun _ => 1
  log10 := fun _ => 2
  sin := fun _ => 0
  cos := fun _ => 0
  tan := fun _ => 1

theorem validar_pair_none (a b : PyVal) (ha : a.isNumeric = true)
    (hb : b.isNumeric = true) : validar_numeros [a, b] = Option.none := by
  simp [validar_numeros, ha, hb]

theorem validar_single_none (x : PyVal) (hx : x.isNumeric = true) :
    validar_numeros [x] = Option.none := by
  simp [validar_numeros, hx]

theorem validar_first (l : List PyVal) (h : ∃ v ∈ l, v.isNumeric = false) :
    ∃ v ∈ l, v.isNumeric = false ∧
      validar_numeros l = some (.typeError (mensajeTipo v)) := by
  induction l with
  | nil => simp at h
  | cons x xs ih =>
    by_cases hx : x.isNumeric = true
    · obtain ⟨v, hv, hnv⟩ := h
      rcases List.mem_cons.mp hv with rfl | hv'
      · rw [hx] at hnv; cases hnv
      · obtain ⟨w, hw, hnw, hval⟩ := ih ⟨v, hv', hnv⟩
        exact ⟨w, List.mem_cons_of_mem _ hw, hnw, by simp [validar_numeros, hx, hval]⟩
    · rw [Bool.not_eq_true] at hx
      exact ⟨x, List.mem_cons_self x xs, hx, by simp [validar_numeros, hx]⟩

theorem sumar_eq (a b : PyVal) (ha : a.isNumeric = true) (hb : b.isNumeric = true) :
    sumar a b =
      ([⟨Level.INFO, "Sumando " ++ fmtd a ++ " + " ++ fmtd b⟩],
       Except.ok (pyAdd a b)) := by
  unfold sumar
  rw [validar_pair_none a b ha hb]

theorem restar_eq (a b : PyVal) (ha : a.isNumeric = true) (hb : b.isNumeric = true) :
    restar a b =
      ([⟨Level.INFO, "Restando " ++ fmtd a ++ " - " ++ fmtd b⟩],
       Except.ok (pySub a b)) := by
  unfold restar
  rw [validar_pair_none a b ha hb]

theorem multiplicar_eq (a b : PyVal) (ha : a.isNumeric = true)
    (hb : b.isNumeric = true) :
    multiplicar a b =
      ([⟨Level.INFO, "Multiplicando " ++ fmtd a ++ " * " ++ fmtd b⟩],
       Except.ok (pyMul a b)) := by
  unfold multiplicar
  rw [validar_pair_none a b ha hb]

theorem dividir_eq_cero (a b : PyVal) (ha : a.isNumeric = true)
    (hb : b.isNumeric = true) (h0 : b.toRat = 0) :
    dividir a b =
      ([⟨Level.ERROR, "Intento de división por cero al intentar dividir "
          ++ fmtd a ++ " por " ++ fmtd b⟩],
       Except.error (PyError.valueError "No se puede dividir por cero")) := by
  unfold dividir
  rw [validar_pair_none a b ha hb]
  simp [h0]

theorem dividir_eq_ok (a b : PyVal) (ha : a.isNumeric = true)
    (hb : b.isNumeric = true) (h0 : b.toRat ≠ 0) :
    dividir a b =
      ([⟨Level.INFO, "Dividiendo " ++ fmtd a ++ " / " ++ fmtd b⟩],
       Except.ok (PyVal.float (a.toRat / b.toRat))) := by
  unfold dividir
  rw [validar_pair_none a b ha hb]
  simp [h0]

theorem potencia_eq_ok (M : MathFns) (a b : PyVal) (ha : a.isNumeric = true)
    (hb : b.isNumeric = true) (hd : ¬ dominioPowError a.toRat b.toRat) :
    potencia M a b =
      ([⟨Level.INFO, "Calculando " ++ fmtd a ++ " ^ " ++ fmtd b⟩],
       Except.ok (PyVal.float (M.pow a.toRat b.toRat))) := by
  unfold potencia
  rw [validar_pair_none a b ha hb]
  simp [hd]

theorem potencia_eq_error (M : MathFns) (a b : PyVal) (ha : a.isNumeric = true)
    (hb : b.isNumeric = true) (hd : dominioPowError a.toRat b.toRat) :
    potencia M a b =
      ([⟨Level.INFO, "Calculando " ++ fmtd a ++ " ^ " ++ fmtd b⟩],
       Except.error (PyError.valueError "math domain error")) := by
  unfold potencia
  rw [validar_pair_none a b ha hb]
  simp [hd]

theorem raiz_eq_neg (M : MathFns) (x : PyVal) (hx : x.isNumeric = true)
    (h0 : x.toRat < 0) :
    raiz_cuadrada M x =
      ([⟨Level.ERROR, "Intento de calcular raíz cuadrada de número negativo: "
          ++ fmtd x⟩],
       Except.error (PyError.valueError
          "No se puede calcular la raíz cuadrada de un número negativo")) := by
  unfold raiz_cuadrada
  rw [validar_single_none x hx]
  simp [h0]

theorem raiz_eq_ok (M : MathFns) (x : PyVal) (hx : x.isNumeric = true)
    (h0 : 0 ≤ x.toRat) :
    raiz_cuadrada M x =
      ([⟨Level.INFO, "Calculando raíz cuadrada de " ++ fmtd x⟩],
       Except.ok (PyVal.float (M.sqrt x.toRat))) := by
  unfold raiz_cuadrada
  rw [validar_single_none x hx]
  simp [not_lt.mpr h0]

theorem ln_eq_npos (M : MathFns) (x : PyVal) (hx : x.isNumeric = true)
    (h0 : x.toRat ≤ 0) :
    logaritmo_natural M x =
      ([⟨Level.ERROR, "Intento de calcular logaritmo de número no positivo: "
          ++ fmtd x⟩],
       Except.error (PyError.valueError
          "No se puede calcular el logaritmo de un número menor o igual a cero")) := by
  unfold logaritmo_natural
  rw [validar_single_none x hx]
  simp [h0]

theorem ln_eq_ok (M : MathFns) (x : PyVal) (hx : x.isNumeric = true)
    (h0 : 0 < x.toRat) :
    logaritmo_natural M x =
      ([⟨Level.INFO, "Calculando logaritmo natural de " ++ fmtd x⟩],
       Except.ok (PyVal.float (M.log x.toRat))) := by
  unfold logaritmo_natural
  rw [validar_single_none x hx]
  simp [not_le.mpr h0]

theorem log10_eq_npos (M : MathFns) (x : PyVal) (hx : x.isNumeric = true)
    (h0 : x.toRat ≤ 0) :
    logaritmo_base_10 M x =
      ([⟨Level.ERROR, "Intento de calcular logaritmo base 10 de número no positivo: "
          ++ fmtd x⟩],
       Except.error (PyError.valueError
          "No se puede calcular el logaritmo de un número menor o igual a cero")) := by
  unfold logaritmo_base_10
  rw [validar_single_none x hx]
  simp [h0]

theorem log10_eq_ok (M : MathFns) (x : PyVal) (hx : x.isNumeric = true)
    (h0 : 0 < x.toRat) :
    logaritmo_base_10 M x =
      ([⟨Level.INFO, "Calculando logaritmo base 10 de " ++ fmtd x⟩],
       Except.ok (PyVal.float (M.log10 x.toRat))) := by
  unfold logaritmo_base_10
  rw [validar_single_none x hx]
  simp [not_le.mpr h0]

theorem seno_eq (M : MathFns) (x : PyVal) (hx : x.isNumeric = true) :
    seno M x =
      ([⟨Level.INFO, "Calculando seno de " ++ fmtf x ++ " radianes"⟩],
       Except.ok (PyVal.float (M.sin x.toRat))) := by
  unfold seno
  rw [validar_single_none x hx]

theorem coseno_eq (M : MathFns) (x : PyVal) (hx : x.isNumeric = true) :
    coseno M x =
      ([⟨Level.INFO, "Calculando coseno de " ++ fmtf x ++ " radianes"⟩],
       Except.ok (PyVal.float (M.cos x.toRat))) := by
  unfold coseno
  rw [validar_single_none x hx]

theorem tangente_eq (M : MathFns) (x : PyVal) (hx : x.isNumeric = true) :
    tangente M x =
      ([⟨Level.INFO, "Calculando tangente de " ++ fmtf x ++ " radianes"⟩],
       Except.ok (PyVal.float (M.tan x.toRat))) := by
  unfold tangente
  rw [validar_single_none x hx]

theorem run_of_validar_error (M : MathFns) (c : Call) (e : PyError)
    (h : validar_numeros c.args = some e) :
    c.run M = ([], Except.error e) := by
  cases c <;>
    simp only [Call.args] at h <;>
    simp [Call.run, sumar, restar, multiplicar, dividir, potencia, raiz_cuadrada,
      logaritmo_natural, logaritmo_base_10, seno, coseno, tangente, h]

theorem toRat_intKind (v : PyVal) (h : v.isIntKind = true) :
    v.toRat = (v.toIntVal : ℚ) := by
  cases v with
  | int n => simp [PyVal.toRat, PyVal.toIntVal]
  | bool b => cases b <;> simp [PyVal.toRat, PyVal.toIntVal]
  | float q => simp [PyVal.isIntKind] at h
  | str s => simp [PyVal.isIntKind] at h

theorem pyAdd_toRat (a b : PyVal) : (pyAdd a b).toRat = a.toRat + b.toRat := by
  unfold pyAdd
  split
  · rename_i h
    rw [Bool.and_eq_true] at h
    rw [toRat_intKind a h.1, toRat_intKind b h.2]
    simp [PyVal.toRat]
  · simp [PyVal.toRat]

theorem pySub_toRat (a b : PyVal) : (pySub a b).toRat = a.toRat - b.toRat := by
  unfold pySub
  split
  · rename_i h
    rw [Bool.and_eq_true] at h
    rw [toRat_intKind a h.1, toRat_intKind b h.2]
    simp [PyVal.toRat]
  · simp [PyVal.toRat]

theorem pyMul_toRat (a b : PyVal) : (pyMul a b).toRat = a.toRat * b.toRat := by
  unfold pyMul
  split
  · rename_i h
    rw [Bool.and_eq_true] at h
    rw [toRat_intKind a h.1, toRat_intKind b h.2]
    simp [PyVal.toRat]
  · simp [PyVal.toRat]

/-- After type validation passes, every call emits exactly one log record
and either returns a value or raises `ValueError` (never `TypeError`).
The error record is the single ERROR record of a guarded precondition,
except for `potencia`, whose domain error from `math.pow` follows the one
INFO record the method has already logged. -/
theorem run_shape (M : MathFns) (c : Call)
    (h : ∀ v ∈ c.args, v.isNumeric = true) :
    ∃ rec : LogRecord, (c.run M).1 = [rec] ∧
      ((∃ r, (c.run M).2 = Except.ok r) ∨
       (∃ vmsg, (c.run M).2 = Except.error (PyError.valueError vmsg))) := by
  cases c with
  | sumar a b =>
    have ha := h a (by simp [Call.args]); have hb := h b (by simp [Call.args])
    rw [Call.run, sumar_eq a b ha hb]
    exact ⟨_, rfl, Or.inl ⟨_, rfl⟩⟩
  | restar a b =>
    have ha := h a (by simp [Call.args]); have hb := h b (by simp [Call.args])
    rw [Call.run, restar_eq a b ha hb]
    exact ⟨_, rfl, Or.inl ⟨_, rfl⟩⟩
  | multiplicar a b =>
    have ha := h a (by simp [Call.args]); have hb := h b (by simp [Call.args])
    rw [Call.run, multiplicar_eq a b ha hb]
    exact ⟨_, rfl, Or.inl ⟨_, rfl⟩⟩
  | dividir a b =>
    have ha := h a (by simp [Call.args]); have hb := h b (by simp [Call.args])
    by_cases h0 : b.toRat = 0
    · rw [Call.run, dividir_eq_cero a b ha hb h0]
      exact ⟨_, rfl, Or.inr ⟨_, rfl⟩⟩
    · rw [Call.run, dividir_eq_ok a b ha hb h0]
      exact ⟨_, rfl, Or.inl ⟨_, rfl⟩⟩
  | potencia a b =>
    have ha := h a (by simp [Call.args]); have hb := h b (by simp [Call.args])
    by_cases hd : dominioPowError a.toRat b.toRat
    · rw [Call.run, potencia_eq_error M a b ha hb hd]
      exact ⟨_, rfl, Or.inr ⟨_, rfl⟩⟩
    · rw [Call.run, potencia_eq_ok M a b ha hb hd]
      exact ⟨_, rfl, Or.inl ⟨_, rfl⟩⟩
  | raiz_cuadrada x =>
    have hx := h x (by simp [Call.args])
    by_cases h0 : x.toRat < 0
    · rw [Call.run, raiz_eq_neg M x hx h0]
      exact ⟨_, rfl, Or.inr ⟨_, rfl⟩⟩
    · rw [Call.run, raiz_eq_ok M x hx (not_lt.mp h0)]
      exact ⟨_, rfl, Or.inl ⟨_, rfl⟩⟩
  | logaritmo_natural x =>
    have hx := h x (by simp [Call.args])
    by_cases h0 : x.toRat ≤ 0
    · rw [Call.run, ln_eq_npos M x hx h0]
      exact ⟨_, rfl, Or.inr ⟨_, rfl⟩⟩
    · rw [Call.run, ln_eq_ok M x hx (not_le.mp h0)]
      exact ⟨_, rfl, Or.inl ⟨_, rfl⟩⟩
  | logaritmo_base_10 x =>
    have hx := h x (by simp [Call.args])
    by_cases h0 : x.toRat ≤ 0
    · rw [Call.run, log10_eq_npos M x hx h0]
      exact ⟨_, rfl, Or.inr ⟨_, rfl⟩⟩
    · rw [Call.run, log10_eq_ok M x hx (not_le.mp h0)]
      exact ⟨_, rfl, Or.inl ⟨_, rfl⟩⟩
  | seno x =>
    have hx := h x (by simp [Call.args])
    rw [Call.run, seno_eq M x hx]
    exact ⟨_, rfl, Or.inl ⟨_, rfl⟩⟩
  | coseno x =>
    have hx := h x (by simp [Call.args])
    rw [Call.run, coseno_eq M x hx]
    exact ⟨_, rfl, Or.inl ⟨_, rfl⟩⟩
  | tangente x =>
    have hx := h x (by simp [Call.args])
    rw [Call.run, tangente_eq M x hx]
    exact ⟨_, rfl, Or.inl ⟨_, rfl⟩⟩

theorem run_logs_length (M : MathFns) (c : Call)
    (h : ∀ v ∈ c.args, v.isNumeric = true) :
    ((c.run M).1).length = 1 := by
  obtain ⟨rec, h1, -⟩ := run_shape M c h
  rw [h1]
  rfl

theorem run_no_typeError (M : MathFns) (c : Call)
    (h : ∀ v ∈ c.args, v.isNumeric = true) (s : String) :
    (c.run M).2 ≠ Except.error (PyError.typeError s) := by
  obtain ⟨rec, -, h2⟩ := run_shape M c h
  rcases h2 with ⟨r, hr⟩ | ⟨vmsg, hr⟩ <;> rw [hr] <;> simp

/-- C1: for every numeric `a` and numeric `b` with `b ≠ 0`, `dividir(a, b)`
returns the true-division float `a / b` and raises nothing (logging one
INFO record); for every numeric `a`, `dividir(a, 0)` logs exactly one
ERROR record, raises `ValueError`, and returns no result. -/
theorem C1_dividir (a b : PyVal) (ha : a.isNumeric = true)
    (hb : b.isNumeric = true) :
    (b.toRat ≠ 0 →
      dividir a b =
        ([⟨Level.INFO, "Dividiendo " ++ fmtd a ++ " / " ++ fmtd b⟩],
         Except.ok (PyVal.float (a.toRat / b.toRat)))) ∧
    (b.toRat = 0 →
      dividir a b =
        ([⟨Level.ERROR, "Intento de división por cero al intentar dividir "
            ++ fmtd a ++ " por " ++ fmtd b⟩],
         Except.error (PyError.valueError "No se puede dividir por cero"))) :=
  ⟨fun h0 => dividir_eq_ok a b ha hb h0, fun h0 => dividir_eq_cero a b ha hb h0⟩

theorem C1_dividir_witness :
    dividir (PyVal.int 15) (PyVal.int 3) =
      ([⟨Level.INFO, "Dividiendo " ++ fmtd (PyVal.int 15) ++ " / "
          ++ fmtd (PyVal.int 3)⟩],
       Except.ok (PyVal.float ((PyVal.int 15).toRat / (PyVal.int 3).toRat))) ∧
    dividir (PyVal.int 5) (PyVal.int 0) =
      ([⟨Level.ERROR, "Intento de división por cero al intentar dividir "
          ++ fmtd (PyVal.int 5) ++ " por " ++ fmtd (PyVal.int 0)⟩],
       Except.error (PyError.valueError "No se puede dividir por cero")) :=
  ⟨(C1_dividir (PyVal.int 15) (PyVal.int 3) rfl rfl).1 (by decide),
   (C1_dividir (PyVal.int 5) (PyVal.int 0) rfl rfl).2 (by decide)⟩

/-- C2: refuted on the code.  `potencia` delegates to `math.pow`, and
CPython's `math.pow` raises `ValueError("math domain error")` at ordinary
numeric inputs: `potencia(0, -1)` (zero base, negative exponent) and
`potencia(-1, 0.5)` (negative base, non-integer exponent) both pass type
validation, log their INFO record, and then raise `ValueKind` —
contradicting the claim that no call of `potencia` with two numeric
arguments raises `ValueKind`. -/
theorem C2_potencia_dominio (M : MathFns) :
    potencia M (PyVal.int 0) (PyVal.int (-1)) =
      ([⟨Level.INFO, "Calculando " ++ fmtd (PyVal.int 0) ++ " ^ "
          ++ fmtd (PyVal.int (-1))⟩],
       Except.error (PyError.valueError "math domain error")) ∧
    potencia M (PyVal.int (-1)) (PyVal.float (1/2)) =
      ([⟨Level.INFO, "Calculando " ++ fmtd (PyVal.int (-1)) ++ " ^ "
          ++ fmtd (PyVal.float (1/2))⟩],
       Except.error (PyError.valueError "math domain error")) :=
  ⟨potencia_eq_error M (PyVal.int 0) (PyVal.int (-1)) rfl rfl (by decide),
   potencia_eq_error M (PyVal.int (-1)) (PyVal.float (1/2)) rfl rfl
     (by unfold dominioPowError
         exact Or.inr ⟨by norm_num [PyVal.toRat], by norm_num [PyVal.toRat]⟩)⟩

/-- C3: for every numeric angle, `seno`, `coseno` and `tangente` accept
the argument, log one INFO record, return the corresponding math-library
value, and never raise `ValueError`. -/
theorem C3_trigonometricas (M : MathFns) (x : PyVal)
    (hx : x.isNumeric = true) :
    seno M x =
      ([⟨Level.INFO, "Calculando seno de " ++ fmtf x ++ " radianes"⟩],
       Except.ok (PyVal.float (M.sin x.toRat))) ∧
    coseno M x =
      ([⟨Level.INFO, "Calculando coseno de " ++ fmtf x ++ " radianes"⟩],
       Except.ok (PyVal.float (M.cos x.toRat))) ∧
    tangente M x =
      ([⟨Level.INFO, "Calculando tangente de " ++ fmtf x ++ " radianes"⟩],
       Except.ok (PyVal.float (M.tan x.toRat))) ∧
    (∀ m, (seno M x).2 ≠ Except.error (PyError.valueError m)) ∧
    (∀ m, (coseno M x).2 ≠ Except.error (PyError.valueError m)) ∧
    (∀ m, (tangente M x).2 ≠ Except.error (PyError.valueError m)) := by
  refine ⟨seno_eq M x hx, coseno_eq M x hx, tangente_eq M x hx,
    fun m => ?_, fun m => ?_, fun m => ?_⟩
  · rw [seno_eq M x hx]; simp
  · rw [coseno_eq M x hx]; simp
  · rw [tangente_eq M x hx]; simp

theorem C3_trigonometricas_witness :
    seno mathDemo (PyVal.int 0) =
      ([⟨Level.INFO, "Calculando seno de " ++ fmtf (PyVal.int 0)
          ++ " radianes"⟩],
       Except.ok (PyVal.float (mathDemo.sin (PyVal.int 0).toRat))) ∧
    (tangente mathDemo (PyVal.int 0)).2 ≠
      Except.error (PyError.valueError "math domain error") :=
  ⟨(C3_trigonometricas mathDemo (PyVal.int 0) rfl).1,
   (C3_trigonometricas mathDemo (PyVal.int 0) rfl).2.2.2.2.2
      "math domain error"⟩

/-- C4: for all numeric `a`, `b`, `sumar`, `restar` and `multiplicar`
return `a + b`, `a - b` and `a * b` under Python numeric semantics, with
exact integer results on integer arguments. -/
theorem C4_aritmetica (a b : PyVal) (ha : a.isNumeric = true)
    (hb : b.isNumeric = true) :
    ((sumar a b).2 = Except.ok (pyAdd a b) ∧
      (pyAdd a b).toRat = a.toRat + b.toRat) ∧
    ((restar a b).2 = Except.ok (pySub a b) ∧
      (pySub a b).toRat = a.toRat - b.toRat) ∧
    ((multiplicar a b).2 = Except.ok (pyMul a b) ∧
      (pyMul a b).toRat = a.toRat * b.toRat) ∧
    (∀ m n : Int,
      pyAdd (PyVal.int m) (PyVal.int n) = PyVal.int (m + n) ∧
      pySub (PyVal.int m) (PyVal.int n) = PyVal.int (m - n) ∧
      pyMul (PyVal.int m) (PyVal.int n) = PyVal.int (m * n)) := by
  refine ⟨⟨?_, pyAdd_toRat a b⟩, ⟨?_, pySub_toRat a b⟩,
    ⟨?_, pyMul_toRat a b⟩, fun m n => ⟨rfl, rfl, rfl⟩⟩
  · rw [sumar_eq a b ha hb]
  · rw [restar_eq a b ha hb]
  · rw [multiplicar_eq a b ha hb]

theorem C4_aritmetica_witness :
    (sumar (PyVal.int 5) (PyVal.int 3)).2 =
      Except.ok (pyAdd (PyVal.int 5) (PyVal.int 3)) ∧
    pyAdd (PyVal.int 5) (PyVal.int 3) = PyVal.int (5 + 3) ∧
    (pyMul (PyVal.float (1/2)) (PyVal.int 4)).toRat =
      (PyVal.float (1/2)).toRat * (PyVal.int 4).toRat :=
  ⟨((C4_aritmetica (PyVal.int 5) (PyVal.int 3) rfl rfl).1).1,
   (((C4_aritmetica (PyVal.int 5) (PyVal.int 3) rfl rfl).2.2.2) 5 3).1,
   ((C4_aritmetica (PyVal.float (1/2)) (PyVal.int 4) rfl rfl).2.2.1).2⟩

/-- C5: for every numeric `x < 0`, `raiz_cuadrada(x)` logs one ERROR
record and raises `ValueError`; for every numeric `x ≥ 0` it returns
`math.sqrt(x)`, a value `y ≥ 0` with `y² ≈ x` within the tolerance the
math library guarantees at `x`. -/
theorem C5_raiz_cuadrada (M : MathFns) (x : PyVal) (tol : ℚ)
    (hx : x.isNumeric = true) :
    (x.toRat < 0 →
      raiz_cuadrada M x =
        ([⟨Level.ERROR, "Intento de calcular raíz cuadrada de número negativo: "
            ++ fmtd x⟩],
         Except.error (PyError.valueError
            "No se puede calcular la raíz cuadrada de un número negativo"))) ∧
    (0 ≤ x.toRat → 0 ≤ M.sqrt x.toRat →
      |M.sqrt x.toRat ^ 2 - x.toRat| ≤ tol →
      ∃ y : ℚ, (raiz_cuadrada M x).2 = Except.ok (PyVal.float y) ∧
        0 ≤ y ∧ |y ^ 2 - x.toRat| ≤ tol) := by
  refine ⟨fun h0 => raiz_eq_neg M x hx h0,
    fun h0 hs ht => ⟨M.sqrt x.toRat, ?_, hs, ht⟩⟩
  rw [raiz_eq_ok M x hx h0]

theorem C5_raiz_cuadrada_witness :
    (raiz_cuadrada mathDemo (PyVal.int (-4)) =
      ([⟨Level.ERROR, "Intento de calcular raíz cuadrada de número negativo: "
          ++ fmtd (PyVal.int (-4))⟩],
       Except.error (PyError.valueError
          "No se puede calcular la raíz cuadrada de un número negativo"))) ∧
    ∃ y : ℚ, (raiz_cuadrada mathDemo (PyVal.int 16)).2 =
        Except.ok (PyVal.float y) ∧
      0 ≤ y ∧ |y ^ 2 - (PyVal.int 16).toRat| ≤ (0 : ℚ) :=
  ⟨(C5_raiz_cuadrada mathDemo (PyVal.int (-4)) 0 rfl).1 (by decide),
   (C5_raiz_cuadrada mathDemo (PyVal.int 16) 0 rfl).2
      (by decide) (by decide)
      (by norm_num [mathDemo, PyVal.toRat])⟩

/-- C6: for every numeric `x ≤ 0`, `logaritmo_natural(x)` and
`logaritmo_base_10(x)` log one ERROR record and raise `ValueError`; for
every numeric `x > 0` they return the math-library natural and base-10
logarithm of `x`, respectively. -/
theorem C6_logaritmos (M : MathFns) (x : PyVal) (hx : x.isNumeric = true) :
    (x.toRat ≤ 0 →
      logaritmo_natural M x =
        ([⟨Level.ERROR, "Intento de calcular logaritmo de número no positivo: "
            ++ fmtd x⟩],
         Except.error (PyError.valueError
            "No se puede calcular el logaritmo de un número menor o igual a cero")) ∧
      logaritmo_base_10 M x =
        ([⟨Level.ERROR,
            "Intento de calcular logaritmo base 10 de número no positivo: "
            ++ fmtd x⟩],
         Except.error (PyError.valueError
            "No se puede calcular el logaritmo de un número menor o igual a cero"))) ∧
    (0 < x.toRat →
      logaritmo_natural M x =
        ([⟨Level.INFO, "Calculando logaritmo natural de " ++ fmtd x⟩],
         Except.ok (PyVal.float (M.log x.toRat))) ∧
      logaritmo_base_10 M x =
        ([⟨Level.INFO, "Calculando logaritmo base 10 de " ++ fmtd x⟩],
         Except.ok (PyVal.float (M.log10 x.toRat)))) :=
  ⟨fun h0 => ⟨ln_eq_npos M x hx h0, log10_eq_npos M x hx h0⟩,
   fun h0 => ⟨ln_eq_ok M x hx h0, log10_eq_ok M x hx h0⟩⟩

theorem C6_logaritmos_witness :
    (logaritmo_natural mathDemo (PyVal.int 0) =
      ([⟨Level.ERROR, "Intento de calcular logaritmo de número no positivo: "
          ++ fmtd (PyVal.int 0)⟩],
       Except.error (PyError.valueError
          "No se puede calcular el logaritmo de un número menor o igual a cero"))) ∧
    (logaritmo_natural mathDemo (PyVal.int 100) =
      ([⟨Level.INFO, "Calculando logaritmo natural de " ++ fmtd (PyVal.int 100)⟩],
       Except.ok (PyVal.float (mathDemo.log (PyVal.int 100).toRat)))) ∧
    (logaritmo_base_10 mathDemo (PyVal.int 100) =
      ([⟨Level.INFO, "Calculando logaritmo base 10 de " ++ fmtd (PyVal.int 100)⟩],
       Except.ok (PyVal.float (mathDemo.log10 (PyVal.int 100).toRat)))) :=
  ⟨((C6_logaritmos mathDemo (PyVal.int 0) rfl).1 (by decide)).1,
   ((C6_logaritmos mathDemo (PyVal.int 100) rfl).2 (by decide)).1,
   ((C6_logaritmos mathDemo (PyVal.int 100) rfl).2 (by decide)).2⟩

/-- C7: every operation called with some non-numeric argument raises
`TypeError` whose message names the offending value's type, and emits no
log record at all (neither INFO nor ERROR). -/
theorem C7_tipo_error (M : MathFns) (c : Call)
    (h : ∃ v ∈ c.args, v.isNumeric = false) :
    ∃ v ∈ c.args, v.isNumeric = false ∧
      c.run M = ([], Except.error (PyError.typeError (mensajeTipo v))) := by
  obtain ⟨v, hv, hnv, hval⟩ := validar_first c.args h
  exact ⟨v, hv, hnv, run_of_validar_error M c _ hval⟩

theorem C7_tipo_error_witness :
    ∃ v ∈ (Call.sumar (PyVal.str "x") (PyVal.int 1)).args,
      v.isNumeric = false ∧
      (Call.sumar (PyVal.str "x") (PyVal.int 1)).run mathDemo =
        ([], Except.error (PyError.typeError (mensajeTipo v))) :=
  C7_tipo_error mathDemo (Call.sumar (PyVal.str "x") (PyVal.int 1))
    ⟨PyVal.str "x", by simp [Call.args], rfl⟩

/-- C8: type validation runs before the divide-by-zero precondition:
`dividir(a, b)` with non-numeric `a` and `b == 0` raises `TypeError`
naming `a`'s type (not `ValueError`) and logs nothing. -/
theorem C8_validacion_primero (a b : PyVal) (ha : a.isNumeric = false)
    (hb : b.toRat = 0) :
    dividir a b = ([], Except.error (PyError.typeError (mensajeTipo a))) := by
  unfold dividir
  simp [validar_numeros, ha]

theorem C8_validacion_primero_witness :
    dividir (PyVal.str "cinco") (PyVal.int 0) =
      ([], Except.error (PyError.typeError (mensajeTipo (PyVal.str "cinco")))) :=
  C8_validacion_primero (PyVal.str "cinco") (PyVal.int 0) rfl (by decide)

/-- C9: the calculator holds no mutable state, so every operation is
deterministic: running the same call twice yields the same result both
times, and the log grows by the records of both calls — two records (one
per call) when the arguments are numeric. -/
theorem C9_idempotencia (M : MathFns) (c : Call)
    (h : ∀ v ∈ c.args, v.isNumeric = true) :
    (runSeq M [c, c]).2 = [(c.run M).2, (c.run M).2] ∧
    (runSeq M [c, c]).1 = (c.run M).1 ++ (c.run M).1 ∧
    ((c.run M).1).length = 1 ∧
    ((runSeq M [c, c]).1).length = 2 := by
  have h1 := run_logs_length M c h
  exact ⟨by simp [runSeq], by simp [runSeq], h1, by simp [runSeq, h1]⟩

theorem C9_idempotencia_witness :
    (runSeq mathDemo [Call.sumar (PyVal.int 1) (PyVal.int 2),
        Call.sumar (PyVal.int 1) (PyVal.int 2)]).2 =
      [((Call.sumar (PyVal.int 1) (PyVal.int 2)).run mathDemo).2,
       ((Call.sumar (PyVal.int 1) (PyVal.int 2)).run mathDemo).2] ∧
    (runSeq mathDemo [Call.sumar (PyVal.int 1) (PyVal.int 2),
        Call.sumar (PyVal.int 1) (PyVal.int 2)]).1 =
      ((Call.sumar (PyVal.int 1) (PyVal.int 2)).run mathDemo).1 ++
      ((Call.sumar (PyVal.int 1) (PyVal.int 2)).run mathDemo).1 ∧
    (((Call.sumar (PyVal.int 1) (PyVal.int 2)).run mathDemo).1).length = 1 ∧
    ((runSeq mathDemo [Call.sumar (PyVal.int 1) (PyVal.int 2),
        Call.sumar (PyVal.int 1) (PyVal.int 2)]).1).length = 2 :=
  C9_idempotencia mathDemo (Call.sumar (PyVal.int 1) (PyVal.int 2))
    (by decide)

/-- C10: Python booleans pass the `isinstance(num, (int, float))` check,
so every operation accepts boolean arguments (never `TypeError`); in
particular `dividir(a, False)` for numeric `a` raises `ValueError`
(division by zero), not `TypeError`. -/
theorem C10_booleanos (M : MathFns) :
    (∀ bb : Bool, (PyVal.bool bb).isNumeric = true) ∧
    (∀ c : Call, (∀ v ∈ c.args, ∃ bb, v = PyVal.bool bb) →
      ∀ s, (c.run M).2 ≠ Except.error (PyError.typeError s)) ∧
    (∀ a : PyVal, a.isNumeric = true →
      dividir a (PyVal.bool false) =
        ([⟨Level.ERROR, "Intento de división por cero al intentar dividir "
            ++ fmtd a ++ " por " ++ fmtd (PyVal.bool false)⟩],
         Except.error (PyError.valueError "No se puede dividir por cero"))) := by
  refine ⟨fun bb => rfl, fun c hc s => ?_, fun a ha =>
    dividir_eq_cero a (PyVal.bool false) ha rfl rfl⟩
  apply run_no_typeError
  intro v hv
  obtain ⟨bb, rfl⟩ := hc v hv
  rfl

theorem C10_booleanos_witness :
    (PyVal.bool true).isNumeric = true ∧
    ((Call.dividir (PyVal.bool true) (PyVal.bool false)).run mathDemo).2 ≠
      Except.error (PyError.typeError
        (mensajeTipo (PyVal.bool false))) ∧
    dividir (PyVal.int 5) (PyVal.bool false) =
      ([⟨Level.ERROR, "Intento de división por cero al intentar dividir "
          ++ fmtd (PyVal.int 5) ++ " por " ++ fmtd (PyVal.bool false)⟩],
       Except.error (PyError.valueError "No se puede dividir por cero")) :=
  ⟨(C10_booleanos mathDemo).1 true,
   (C10_booleanos mathDemo).2.1 (Call.dividir (PyVal.bool true) (PyVal.bool false))
     (by intro v hv
         simp only [Call.args, List.mem_cons, List.not_mem_nil, or_false] at hv
         rcases hv with rfl | rfl
         · exact ⟨true, rfl⟩
         · exact ⟨false, rfl⟩)
     (mensajeTipo (PyVal.bool false)),
   (C10_booleanos mathDemo).2.2 (PyVal.int 5) rfl⟩

end Calculadora
